import Mathlib

/-!
Shallow embedding of the certificate endpoints of the E-learning LMS backend
(`backend/app/api/v1/endpoints/certificates.py`).

Document identifiers (Mongo ObjectIds) are modelled as `Nat`; timestamps as
`Nat`; the document store `db` as a record of lists, one per collection, in
insertion order (`find_one` returns the first match, `insert_one` appends,
`update_one` updates the first match).  Fresh identifiers for inserted
documents come from a `nextId` counter.  The external artifact renderer
`generate_certificate` is a function parameter returning `Option String`
(`none` models an exception, surfaced as an HTTP 500).  The random source
`uuid.uuid4().hex` is a `List Char` parameter.
-/

/-- A course document (collection `courses`).  Written by a course-management
collaborator; this service reads it and sets the three certificate fields. -/
structure Course where
  id : Nat
  teacher_id : Nat
  courseCode : String
  courseName : String
  instructorName : String
  certificateOffered : Bool
  certificateTitle : Option String
  certificateDescription : Option String
deriving DecidableEq, Repr

/-- A certificate template document (collection `certificates`). -/
structure CertTemplate where
  id : Nat
  course_id : Nat
  title : String
  description : Option String
  template : String
  created_at : Nat
  updated_at : Nat
deriving DecidableEq, Repr

/-- An enrollment document (collection `enrollments`); externally owned. -/
structure Enrollment where
  course_id : Nat
  student_id : Nat
deriving DecidableEq, Repr

/-- An issued certificate document (collection `student_certificates`). -/
structure StudentCert where
  id : Nat
  certificate_id : Nat
  student_id : Nat
  course_id : Nat
  issue_date : Nat
  completion_date : Nat
  credential_id : String
  certificate_url : String
  status : String
deriving DecidableEq, Repr

/-- A user document (collection `users`); only the fields this module reads. -/
structure UserRec where
  id : Nat
  username : String
deriving DecidableEq, Repr

/-- A notification document (collection `notifications`); write-only here. -/
structure Notification where
  title : String
  message : String
  ntype : String
  recipient_id : Nat
  sender_id : Nat
  course_id : Nat
  read : Bool
  created_at : Nat
deriving DecidableEq, Repr

/-- The document store: one list per collection, plus a fresh-id counter. -/
structure DB where
  courses : List Course
  certificates : List CertTemplate
  enrollments : List Enrollment
  student_certificates : List StudentCert
  users : List UserRec
  notifications : List Notification
  nextId : Nat
deriving DecidableEq, Repr

/-- An `HTTPException` as raised by the handlers. -/
structure HTTPError where
  status_code : Nat
  detail : String
deriving DecidableEq, Repr

/-- `db.courses.find_one({"_id": course_id, "teacher_id": str(user.id)})`. -/
def findCourseOwned (db : DB) (course_id teacher : Nat) : Option Course :=
  db.courses.find? (fun c => c.id == course_id && c.teacher_id == teacher)

/-- `db.certificates.find_one({"course_id": course_id})`. -/
def findTemplateByCourse (db : DB) (course_id : Nat) : Option CertTemplate :=
  db.certificates.find? (fun t => t.course_id == course_id)

/-- `db.enrollments.find_one({"course_id": ..., "student_id": ...})`. -/
def findEnrollment (db : DB) (course_id student_id : Nat) : Option Enrollment :=
  db.enrollments.find? (fun e => e.course_id == course_id && e.student_id == student_id)

/-- `db.student_certificates.find_one({"certificate_id": ..., "student_id": ...})`. -/
def findStudentCert (db : DB) (cert_id student_id : Nat) : Option StudentCert :=
  db.student_certificates.find? (fun sc => sc.certificate_id == cert_id && sc.student_id == student_id)

/-- `db.users.find_one({"_id": uid})`. -/
def findUser (db : DB) (uid : Nat) : Option UserRec :=
  db.users.find? (fun u => u.id == uid)

/-- `db.courses.find_one({"_id": cid})`. -/
def findCourseById (db : DB) (cid : Nat) : Option Course :=
  db.courses.find? (fun c => c.id == cid)

/-- `db.certificates.find_one({"_id": tid})`. -/
def findTemplateById (db : DB) (tid : Nat) : Option CertTemplate :=
  db.certificates.find? (fun t => t.id == tid)

/-- `update_one`: apply `g` to the first element satisfying `q` (Mongo
updates the first matching document in natural order). -/
def updateFirst {α : Type} (q : α → Bool) (g : α → α) : List α → List α
  | [] => []
  | x :: xs => if q x then g x :: xs else x :: updateFirst q g xs

/-- The hardcoded default template asset path of `create_certificate_template`. -/
def default_template_path : String := "certificate_templates/default_template.png"

/-- The certificate part of the `POST /create` success response. -/
structure TemplateResp where
  id : Nat
  title : String
  description : Option String
  course_id : Nat
  template : String
deriving DecidableEq, Repr

/-- `POST /create` — `create_certificate_template(title, course_id, description)` for
a caller with teacher capability.  Returns the response (or the raised
`HTTPException`) together with the resulting store. -/
def create_certificate_template (title : String) (course_id : Nat)
    (description : Option String) (current_user : Nat) (now : Nat) (db : DB) :
    Except HTTPError TemplateResp × DB :=
  match findCourseOwned db course_id current_user with
  | none => (.error ⟨404, "Course not found or you don\x27t have permission"⟩, db)
  | some _ =>
    let certAndDb : Nat × DB :=
      match findTemplateByCourse db course_id with
      | some existing =>
        (existing.id,
         { db with certificates :=
             (updateFirst (fun t => t.id == existing.id)
               (fun t => { t with title := title, description := description, updated_at := now })
               db.certificates) })
      | none =>
        (db.nextId,
         { db with
             certificates := db.certificates ++
               [{ id := db.nextId, course_id := course_id, title := title,
                  description := description, template := default_template_path,
                  created_at := now, updated_at := now }],
             nextId := db.nextId + 1 })
    let db2 : DB := { certAndDb.2 with courses :=
      (updateFirst (fun c => c.id == course_id)
        (fun c => { c with certificateOffered := true,
                           certificateTitle := some title,
                           certificateDescription := description })
        certAndDb.2.courses) }
    (.ok { id := certAndDb.1, title := title, description := description,
           course_id := course_id, template := default_template_path }, db2)

/-- The argument tuple passed to the external renderer `generate_certificate`. -/
structure RenderArgs where
  student_name : String
  course_name : String
  certificate_title : String
  instructor_name : String
  issue_date : Nat
  credential_id : String
  template_path : String
deriving DecidableEq, Repr

/-- `f"CERT-{course[courseCode]}-{uuid.uuid4().hex[:6].upper()}"` with the
random hex digest passed in as `rnd`. -/
def mkCredentialId (courseCode : String) (rnd : List Char) : String :=
  "CERT-" ++ courseCode ++ "-" ++ String.mk ((rnd.take 6).map Char.toUpper)

/-- The certificate part of the `POST /issue` success response. -/
structure IssueResp where
  id : Nat
  certificate_id : Nat
  student_id : Nat
  course_id : Nat
  issue_date : Nat
  completion_date : Nat
  credential_id : String
  certificate_url : String
  status : String
deriving DecidableEq, Repr

/-- `POST /issue/{course_id}/{student_id}` — `issue_certificate` for a caller
with teacher capability.  `rnd` is the uuid4 hex digest, `render` the external
renderer (`none` models a rendering exception, surfaced as HTTP 500). -/
def issue_certificate (course_id student_id current_user : Nat) (now : Nat)
    (rnd : List Char) (render : RenderArgs → Option String) (db : DB) :
    Except HTTPError IssueResp × DB :=
  match findCourseOwned db course_id current_user with
  | none => (.error ⟨404, "Course not found or you don\x27t have permission"⟩, db)
  | some course =>
    match findTemplateByCourse db course_id with
    | none => (.error ⟨404, "No certificate template found for this course"⟩, db)
    | some certificate =>
      match findEnrollment db course_id student_id with
      | none => (.error ⟨404, "Student not enrolled in this course"⟩, db)
      | some _ =>
        match findStudentCert db certificate.id student_id with
        | some _ => (.error ⟨400, "Certificate already issued to this student"⟩, db)
        | none =>
          match findUser db student_id with
          | none => (.error ⟨404, "Student not found"⟩, db)
          | some student =>
            let credential_id := mkCredentialId course.courseCode rnd
            match render { student_name := student.username,
                           course_name := course.courseName,
                           certificate_title := certificate.title,
                           instructor_name := course.instructorName,
                           issue_date := now, credential_id := credential_id,
                           template_path := certificate.template } with
            | none => (.error ⟨500, "Internal Server Error"⟩, db)
            | some certificate_url =>
              let newCert : StudentCert :=
                { id := db.nextId, certificate_id := certificate.id,
                  student_id := student_id, course_id := course_id,
                  issue_date := now, completion_date := now,
                  credential_id := credential_id,
                  certificate_url := certificate_url, status := "Available" }
              let notif : Notification :=
                { title := "Certificate Issued",
                  message := "You have been issued a certificate for completing \x27"
                             ++ course.courseName ++ "\x27",
                  ntype := "certificate", recipient_id := student_id,
                  sender_id := current_user, course_id := course_id,
                  read := false, created_at := now }
              (.ok { id := newCert.id, certificate_id := newCert.certificate_id,
                     student_id := newCert.student_id, course_id := newCert.course_id,
                     issue_date := newCert.issue_date,
                     completion_date := newCert.completion_date,
                     credential_id := newCert.credential_id,
                     certificate_url := newCert.certificate_url,
                     status := newCert.status },
               { db with
                   student_certificates := db.student_certificates ++ [newCert],
                   notifications := db.notifications ++ [notif],
                   nextId := db.nextId + 1 })

/-- One entry of the `GET /student` response: the stored record enriched with
course name/instructor and template title/description. -/
structure StudentCertView where
  cert : StudentCert
  course_name : String
  course_instructor : String
  template_title : String
  template_description : Option String
deriving DecidableEq, Repr

/-- The `async for` loop of `get_student_certificates`: for each record, look
up its course and template and keep it (enriched) only if both resolve. -/
def studentCertLoop (db : DB) : List StudentCert → List StudentCertView
  | [] => []
  | sc :: rest =>
    match findCourseById db sc.course_id, findTemplateById db sc.certificate_id with
    | some course, some template =>
        { cert := sc, course_name := course.courseName,
          course_instructor := course.instructorName,
          template_title := template.title,
          template_description := template.description } :: studentCertLoop db rest
    | some _, none => studentCertLoop db rest
    | none, _ => studentCertLoop db rest

/-- `GET /student` — `get_student_certificates` for a caller with student
capability. -/
def get_student_certificates (current_user : Nat) (db : DB) : List StudentCertView :=
  studentCertLoop db (db.student_certificates.filter (fun sc => sc.student_id == current_user))

/-- The per-record enrichment of the student listing, as a partial map:
`none` when the referenced course or template is missing. -/
def enrichStudentCert (db : DB) (sc : StudentCert) : Option StudentCertView :=
  match findCourseById db sc.course_id, findTemplateById db sc.certificate_id with
  | some course, some template =>
      some { cert := sc, course_name := course.courseName,
             course_instructor := course.instructorName,
             template_title := template.title,
             template_description := template.description }
  | some _, none => none
  | none, _ => none

/-- One entry of the `GET /course/{course_id}` issued list: the stored record
enriched with the receiving student display name. -/
structure CourseCertView where
  cert : StudentCert
  student_name : String
deriving DecidableEq, Repr

/-- The `async for` loop of `get_course_certificates`: keep each record
(enriched with the student name) only if the student record resolves. -/
def courseCertLoop (db : DB) : List StudentCert → List CourseCertView
  | [] => []
  | sc :: rest =>
    match findUser db sc.student_id with
    | some student => { cert := sc, student_name := student.username } :: courseCertLoop db rest
    | none => courseCertLoop db rest

/-- The `GET /course/{course_id}` success response. -/
structure CourseCertsResp where
  certificate_template : Option TemplateResp
  issued_certificates : List CourseCertView
deriving DecidableEq, Repr

/-- `GET /course/{course_id}` — `get_course_certificates` for a caller with
teacher capability.  Read-only, so only the response is returned. -/
def get_course_certificates (course_id current_user : Nat) (db : DB) :
    Except HTTPError CourseCertsResp :=
  match findCourseOwned db course_id current_user with
  | none => .error ⟨404, "Course not found or you don\x27t have permission"⟩
  | some _ =>
    match findTemplateByCourse db course_id with
    | none => .ok { certificate_template := none, issued_certificates := [] }
    | some template =>
      .ok { certificate_template := some
              { id := template.id, title := template.title,
                description := template.description,
                course_id := template.course_id, template := template.template },
            issued_certificates :=
              courseCertLoop db
                (db.student_certificates.filter (fun sc => sc.course_id == course_id)) }

/-- One entry of the `GET /admin` response: all identifiers stringified. -/
structure StringifiedCert where
  id : String
  certificate_id : String
  student_id : String
  course_id : String
  issue_date : Nat
  completion_date : Nat
  credential_id : String
  certificate_url : String
  status : String
deriving DecidableEq, Repr

/-- `str(...)` applied to each identifier of an issued-certificate document. -/
def stringifyCert (sc : StudentCert) : StringifiedCert :=
  { id := toString sc.id, certificate_id := toString sc.certificate_id,
    student_id := toString sc.student_id, course_id := toString sc.course_id,
    issue_date := sc.issue_date, completion_date := sc.completion_date,
    credential_id := sc.credential_id, certificate_url := sc.certificate_url,
    status := sc.status }

/-- The `GET /admin` response. -/
structure AdminResp where
  total : Nat
  certificates : List StringifiedCert
deriving DecidableEq, Repr

/-- The `async for` loop of `get_all_certificates`. -/
def adminLoop : List StudentCert → List StringifiedCert
  | [] => []
  | sc :: rest => stringifyCert sc :: adminLoop rest

/-- `GET /admin` — `get_all_certificates` for a caller with administrator
capability: `count_documents({})` then an unfiltered scan. -/
def get_all_certificates (db : DB) : AdminResp :=
  { total := db.student_certificates.length,
    certificates := adminLoop db.student_certificates }

/-- The lowercase hex alphabet of `uuid.uuid4().hex`. -/
def lowerHexChars : List Char := "0123456789abcdef".toList

/-- Uppercase hexadecimal characters, for the credential-code pattern. -/
def isUpperHexChar (c : Char) : Bool := "0123456789ABCDEF".toList.contains c

/-- At most one issued certificate per (template, student) pair. -/
def PairUnique (db : DB) : Prop :=
  db.student_certificates.Pairwise
    (fun a b => ¬(a.certificate_id = b.certificate_id ∧ a.student_id = b.student_id))

/-! ### Concrete test fixtures -/

/-- Fixture: course 1 (code `CS101`), owned by teacher 10. -/
def course0 : Course :=
  { id := 1, teacher_id := 10, courseCode := "CS101", courseName := "Intro",
    instructorName := "Alice", certificateOffered := false,
    certificateTitle := none, certificateDescription := none }

/-- Fixture: template 2 for course 1. -/
def tmpl0 : CertTemplate :=
  { id := 2, course_id := 1, title := "Completion", description := some "Well done",
    template := default_template_path, created_at := 0, updated_at := 0 }

/-- Fixture: student 20. -/
def user0 : UserRec := { id := 20, username := "bob" }

/-- Fixture: a store with course 1, its template, student 20 enrolled,
and no issued certificate yet. -/
def db0 : DB :=
  { courses := [course0], certificates := [tmpl0],
    enrollments := [{ course_id := 1, student_id := 20 }],
    student_certificates := [], users := [user0],
    notifications := [], nextId := 100 }

/-- Fixture: a uuid hex digest prefix. -/
def rnd0 : List Char := "abc123".toList

/-- Fixture: a renderer that always succeeds. -/
def render0 : RenderArgs → Option String := fun _ => some "media/cert0.png"

/-- Fixture: a renderer that always raises. -/
def renderNone : RenderArgs → Option String := fun _ => none

/-- Fixture: the issued certificate created by issuing on `db0`. -/
def cert0 : StudentCert :=
  { id := 100, certificate_id := 2, student_id := 20, course_id := 1,
    issue_date := 5, completion_date := 5, credential_id := "CERT-CS101-ABC123",
    certificate_url := "media/cert0.png", status := "Available" }

/-- Fixture: the response of issuing on `db0`. -/
def resp0 : IssueResp :=
  { id := 100, certificate_id := 2, student_id := 20, course_id := 1,
    issue_date := 5, completion_date := 5, credential_id := "CERT-CS101-ABC123",
    certificate_url := "media/cert0.png", status := "Available" }

/-- Fixture: the notification created by issuing on `db0`. -/
def notif0 : Notification :=
  { title := "Certificate Issued",
    message := "You have been issued a certificate for completing \x27Intro\x27",
    ntype := "certificate", recipient_id := 20, sender_id := 10, course_id := 1,
    read := false, created_at := 5 }

/-- Fixture: the store after issuing on `db0`. -/
def db0iss : DB :=
  { db0 with student_certificates := [cert0], notifications := [notif0], nextId := 101 }

/-- Fixture: `db0` without the template (for first-call template creation). -/
def db4 : DB := { db0 with certificates := [] }

/-- Fixture: an issued certificate for course 1 but no template record —
the template has been deleted out of band. -/
def db5 : DB :=
  { courses := [course0], certificates := [],
    enrollments := [{ course_id := 1, student_id := 20 }],
    student_certificates := [cert0], users := [user0],
    notifications := [], nextId := 200 }

/-- Fixture: a template whose stored asset path differs from the default. -/
def tmplCustom : CertTemplate :=
  { id := 3, course_id := 1, title := "Old", description := none,
    template := "uploads/custom.png", created_at := 0, updated_at := 0 }

/-- Fixture: `db0` with the custom-path template instead of the default one. -/
def db10 : DB := { db0 with certificates := [tmplCustom] }

/-! ### Helper lemmas on list primitives -/

/-- `find?` skips over a prefix with no match. -/
theorem find?_append_of_none {α : Type} (p : α → Bool) (l1 l2 : List α)
    (h : l1.find? p = none) : (l1 ++ l2).find? p = l2.find? p := by
  rw [List.find?_append, h, Option.none_or]

/-- `updateFirst` skips over a prefix with no match. -/
theorem updateFirst_append_of_none {α : Type} (q : α → Bool) (g : α → α)
    (l1 l2 : List α) (h : ∀ x ∈ l1, q x = false) :
    updateFirst q g (l1 ++ l2) = l1 ++ updateFirst q g l2 := by
  induction l1 with
  | nil => simp
  | cons x xs ih =>
    have hx := h x (by simp)
    simp [List.cons_append, updateFirst, hx, ih (fun y hy => h y (by simp [hy]))]

/-- A field that the update function leaves untouched is untouched on every
element of the list. -/
theorem updateFirst_map_invar {α β : Type} (q : α → Bool) (g : α → α) (f : α → β)
    (hf : ∀ x, f (g x) = f x) (l : List α) : (updateFirst q g l).map f = l.map f := by
  induction l with
  | nil => rfl
  | cons x xs ih =>
    cases hx : q x with
    | true => simp [updateFirst, hx, hf]
    | false => simp [updateFirst, hx, ih]

/-- If the update function preserves the search predicate, updating cannot
make a matching element disappear. -/
theorem find?_isSome_updateFirst {α : Type} (p q : α → Bool) (g : α → α)
    (hpg : ∀ x, p (g x) = p x) (l : List α) (h : (l.find? p).isSome) :
    ((updateFirst q g l).find? p).isSome := by
  rw [List.find?_isSome] at h ⊢
  obtain ⟨y, hy, hpy⟩ := h
  induction l with
  | nil => simp at hy
  | cons x xs ih =>
    cases hx : q x with
    | true =>
      simp only [updateFirst, hx, if_true]
      rcases List.mem_cons.1 hy with rfl | hmem
      · exact ⟨g y, by simp, by rw [hpg]; exact hpy⟩
      · exact ⟨y, by simp [hmem], hpy⟩
    | false =>
      simp only [updateFirst, hx, Bool.false_eq_true, if_false]
      rcases List.mem_cons.1 hy with rfl | hmem
      · exact ⟨y, by simp, hpy⟩
      · obtain ⟨z, hz, hpz⟩ := ih hmem
        exact ⟨z, by simp [hz], hpz⟩

/-- Splitting a list at the first match: `find?` returns that element and
`updateFirst` rewrites exactly that position. -/
theorem updateFirst_decomp {α : Type} (q : α → Bool) (g : α → α) (l : List α)
    (c : α) (h : l.find? q = some c) :
    ∃ l1 l2, l = l1 ++ c :: l2 ∧ (∀ x ∈ l1, q x = false) ∧
      updateFirst q g l = l1 ++ g c :: l2 := by
  induction l with
  | nil => simp at h
  | cons x xs ih =>
    rw [List.find?_cons] at h
    cases hx : q x with
    | true =>
      rw [hx] at h
      injection h with h
      subst h
      exact ⟨[], xs, rfl, by simp, by simp [updateFirst, hx]⟩
    | false =>
      rw [hx] at h
      obtain ⟨l1, l2, heq, hpre, hupd⟩ := ih h
      refine ⟨x :: l1, l2, by rw [heq]; rfl, ?_, ?_⟩
      · intro y hy
        rcases List.mem_cons.1 hy with rfl | hmem
        · exact hx
        · exact hpre y hmem
      · simp only [updateFirst, hx, Bool.false_eq_true, if_false, hupd, List.cons_append]

/-- The student-listing loop is the `filterMap` of the per-record enrichment. -/
theorem studentCertLoop_eq_filterMap (db : DB) (l : List StudentCert) :
    studentCertLoop db l = l.filterMap (enrichStudentCert db) := by
  induction l with
  | nil => rfl
  | cons sc rest ih =>
    rw [List.filterMap_cons]
    cases hc : findCourseById db sc.course_id with
    | none => simp only [studentCertLoop, enrichStudentCert, hc, ih]
    | some course =>
      cases ht : findTemplateById db sc.certificate_id with
      | none => simp only [studentCertLoop, enrichStudentCert, hc, ht, ih]
      | some template => simp only [studentCertLoop, enrichStudentCert, hc, ht, ih]

/-- The course-listing loop keeps exactly the records whose student resolves. -/
theorem courseCertLoop_eq_filterMap (db : DB) (l : List StudentCert) :
    courseCertLoop db l = l.filterMap (fun sc => (findUser db sc.student_id).map
      (fun u => { cert := sc, student_name := u.username })) := by
  induction l with
  | nil => rfl
  | cons sc rest ih =>
    rw [List.filterMap_cons]
    cases hu : findUser db sc.student_id with
    | none => simp [courseCertLoop, hu, ih]
    | some u => simp [courseCertLoop, hu, ih]

/-- The administrative loop is a plain `map` of the stringification. -/
theorem adminLoop_eq_map (l : List StudentCert) : adminLoop l = l.map stringifyCert := by
  induction l with
  | nil => rfl
  | cons sc rest ih => simp only [adminLoop, List.map_cons, ih]

/-- Enrichment never changes the underlying record it wraps. -/
theorem enrichStudentCert_cert (db : DB) (a : StudentCert) (v : StudentCertView)
    (h : enrichStudentCert db a = some v) : v.cert = a := by
  unfold enrichStudentCert at h
  split at h
  · injection h with h2
    rw [← h2]
  · cases h
  · cases h

/-! ### The claims -/

/-- Claim C8: the administrative listing returns every issued-certificate
document unfiltered with identifiers stringified, and `total` equals the
store's full document count, so the number of returned records equals
`total`. -/
theorem C8_admin_listing (db : DB) :
    (get_all_certificates db).certificates = db.student_certificates.map stringifyCert ∧
    (get_all_certificates db).total = db.student_certificates.length ∧
    (get_all_certificates db).certificates.length = (get_all_certificates db).total := by
  refine ⟨adminLoop_eq_map _, rfl, ?_⟩
  show (adminLoop db.student_certificates).length = db.student_certificates.length
  rw [adminLoop_eq_map, List.length_map]

/-- Claim C7: the student listing returns exactly those issued certificates
whose student identifier equals the caller and whose referenced course and
template both resolve, each enriched with the course name/instructor and the
template title/description; records with a missing reference are silently
omitted. -/
theorem C7_student_listing (uid : Nat) (db : DB) :
    get_student_certificates uid db =
      (db.student_certificates.filter (fun sc => sc.student_id == uid)).filterMap
        (enrichStudentCert db) ∧
    ∀ v, v ∈ get_student_certificates uid db ↔
      v.cert ∈ db.student_certificates ∧ v.cert.student_id = uid ∧
        enrichStudentCert db v.cert = some v := by
  have hmain : get_student_certificates uid db =
      (db.student_certificates.filter (fun sc => sc.student_id == uid)).filterMap
        (enrichStudentCert db) := studentCertLoop_eq_filterMap db _
  refine ⟨hmain, fun v => ?_⟩
  rw [hmain, List.mem_filterMap]
  constructor
  · rintro ⟨a, ha, henr⟩
    obtain ⟨hamem, haid⟩ := List.mem_filter.1 ha
    have hcert := enrichStudentCert_cert db a v henr
    subst hcert
    exact ⟨hamem, by simpa using haid, henr⟩
  · rintro ⟨hmem, hsid, henr⟩
    exact ⟨v.cert, List.mem_filter.2 ⟨hmem, by simp [hsid]⟩, henr⟩

/-- Claim C2: the issuance validation sequence is evaluated in order —
course ownership, template existence, enrollment, duplicate issuance,
student resolution — each failing step short-circuiting with its own
NotFound/Conflict error and leaving the store unchanged. -/
theorem C2_validation_order (cid sid uid now : Nat) (rnd : List Char)
    (render : RenderArgs → Option String) (db : DB) :
    (findCourseOwned db cid uid = none →
      issue_certificate cid sid uid now rnd render db =
        (.error ⟨404, "Course not found or you don\x27t have permission"⟩, db)) ∧
    (∀ course, findCourseOwned db cid uid = some course →
      findTemplateByCourse db cid = none →
      issue_certificate cid sid uid now rnd render db =
        (.error ⟨404, "No certificate template found for this course"⟩, db)) ∧
    (∀ course t, findCourseOwned db cid uid = some course →
      findTemplateByCourse db cid = some t →
      findEnrollment db cid sid = none →
      issue_certificate cid sid uid now rnd render db =
        (.error ⟨404, "Student not enrolled in this course"⟩, db)) ∧
    (∀ course t e sc, findCourseOwned db cid uid = some course →
      findTemplateByCourse db cid = some t →
      findEnrollment db cid sid = some e →
      findStudentCert db t.id sid = some sc →
      issue_certificate cid sid uid now rnd render db =
        (.error ⟨400, "Certificate already issued to this student"⟩, db)) ∧
    (∀ course t e, findCourseOwned db cid uid = some course →
      findTemplateByCourse db cid = some t →
      findEnrollment db cid sid = some e →
      findStudentCert db t.id sid = none →
      findUser db sid = none →
      issue_certificate cid sid uid now rnd render db =
        (.error ⟨404, "Student not found"⟩, db)) := by
  refine ⟨?_, ?_, ?_, ?_, ?_⟩
  · intro h1
    simp [issue_certificate, h1]
  · intro course h1 h2
    simp [issue_certificate, h1, h2]
  · intro course t h1 h2 h3
    simp [issue_certificate, h1, h2, h3]
  · intro course t e sc h1 h2 h3 h4
    simp [issue_certificate, h1, h2, h3, h4]
  · intro course t e h1 h2 h3 h4 h5
    simp [issue_certificate, h1, h2, h3, h4, h5]

/-- Witness for C2 at a concrete input: with no matching course, issuance
fails with the ownership NotFound error and the store is unchanged. -/
theorem C2_validation_order_witness :
    issue_certificate 1 20 11 5 rnd0 render0 db0 =
      (.error ⟨404, "Course not found or you don\x27t have permission"⟩, db0) :=
  (C2_validation_order 1 20 11 5 rnd0 render0 db0).1 (by decide)

/-- Claim C3: when the artifact renderer raises, issuance surfaces a server
error and the store is unchanged — no issued-certificate document and no
notification document is persisted. -/
theorem C3_render_failure (cid sid uid now : Nat) (rnd : List Char) (db : DB)
    (course : Course) (t : CertTemplate) (e : Enrollment) (student : UserRec)
    (h1 : findCourseOwned db cid uid = some course)
    (h2 : findTemplateByCourse db cid = some t)
    (h3 : findEnrollment db cid sid = some e)
    (h4 : findStudentCert db t.id sid = none)
    (h5 : findUser db sid = some student)
    (render : RenderArgs → Option String) (hr : ∀ a, render a = none) :
    issue_certificate cid sid uid now rnd render db =
      (.error ⟨500, "Internal Server Error"⟩, db) := by
  simp [issue_certificate, h1, h2, h3, h4, h5, hr]

/-- Witness for C3 at a concrete input: on the happy-path store with an
always-failing renderer, issuance returns a 500 and the store is unchanged. -/
theorem C3_render_failure_witness :
    issue_certificate 1 20 10 5 rnd0 renderNone db0 =
      (.error ⟨500, "Internal Server Error"⟩, db0) :=
  C3_render_failure 1 20 10 5 rnd0 db0 course0 tmpl0
    { course_id := 1, student_id := 20 } user0
    (by decide) (by decide) (by decide) (by decide) (by decide)
    renderNone (fun _ => rfl)

/-- Claim C6: every successful issuance generates a credential code equal to
`CERT-`, the course code, a hyphen, and exactly 6 uppercase hexadecimal
characters (given that the random source is a uuid4 hex digest: at least 6
lowercase hexadecimal characters). -/
theorem C6_credential_pattern (cid sid uid now : Nat) (rnd : List Char)
    (render : RenderArgs → Option String) (db : DB) (resp : IssueResp) (db' : DB)
    (course : Course)
    (hc : findCourseOwned db cid uid = some course)
    (hok : issue_certificate cid sid uid now rnd render db = (.ok resp, db'))
    (hlen : 6 ≤ rnd.length) (hhex : ∀ c ∈ rnd, c ∈ lowerHexChars) :
    ∃ s : List Char,
      resp.credential_id = "CERT-" ++ course.courseCode ++ "-" ++ String.mk s ∧
      s.length = 6 ∧ ∀ c ∈ s, isUpperHexChar c = true := by
  have hcred : resp.credential_id = mkCredentialId course.courseCode rnd := by
    simp only [issue_certificate, hc] at hok
    split at hok
    · simp at hok
    split at hok
    · simp at hok
    split at hok
    · simp at hok
    split at hok
    · simp at hok
    split at hok
    · simp at hok
    rw [Prod.mk.injEq] at hok
    obtain ⟨h1, h2⟩ := hok
    rw [Except.ok.injEq] at h1
    rw [← h1]
  refine ⟨(rnd.take 6).map Char.toUpper, ?_, ?_, ?_⟩
  · rw [hcred]
    rfl
  · rw [List.length_map, List.length_take]
    omega
  · intro c hcmem
    obtain ⟨d, hd, rfl⟩ := List.mem_map.1 hcmem
    have hdhex : d ∈ lowerHexChars := hhex d (List.take_subset 6 rnd hd)
    have hall : ∀ x ∈ lowerHexChars, isUpperHexChar (Char.toUpper x) = true := by decide
    exact hall d hdhex

/-- Witness for C6 at a concrete input: issuing on the happy-path store with
digest `abc123` yields credential code `CERT-CS101-ABC123`. -/
theorem C6_credential_pattern_witness :
    ∃ s : List Char,
      resp0.credential_id = "CERT-" ++ course0.courseCode ++ "-" ++ String.mk s ∧
      s.length = 6 ∧ ∀ c ∈ s, isUpperHexChar c = true :=
  C6_credential_pattern 1 20 10 5 rnd0 render0 db0 resp0 db0iss course0
    (by decide) (by rfl) (by decide) (by decide)

/-- Claim C1: a successful issuance stores and returns status `Available`,
preserves the at-most-one-per-(template, student) invariant, and any further
issue call for the same (course, student) pair fails with the HTTP 400
duplicate-issuance Conflict and inserts nothing. -/
theorem C1_issue_unique (cid sid uid now : Nat) (rnd : List Char)
    (render : RenderArgs → Option String) (db : DB) (resp : IssueResp) (db' : DB)
    (h : issue_certificate cid sid uid now rnd render db = (.ok resp, db')) :
    resp.status = "Available" ∧
    (∃ sc ∈ db'.student_certificates, sc.certificate_id = resp.certificate_id ∧
      sc.student_id = sid ∧ sc.status = "Available") ∧
    (PairUnique db → PairUnique db') ∧
    (∀ now2 rnd2 render2, issue_certificate cid sid uid now2 rnd2 render2 db' =
      (.error ⟨400, "Certificate already issued to this student"⟩, db')) := by
  simp only [issue_certificate] at h
  split at h
  · simp at h
  next course hc =>
    split at h
    · simp at h
    next cert ht =>
      split at h
      · simp at h
      next enr he =>
        split at h
        next sc0 hsc0 => simp at h
        next hsc =>
          split at h
          · simp at h
          next student hu =>
            split at h
            · simp at h
            next url hr =>
              rw [Prod.mk.injEq] at h
              obtain ⟨h1, h2⟩ := h
              rw [Except.ok.injEq] at h1
              subst h1
              subst h2
              refine ⟨rfl, ?_, ?_, ?_⟩
              · exact ⟨_, List.mem_append_right _ (List.mem_singleton_self _), rfl, rfl, rfl⟩
              · intro hp
                unfold PairUnique at hp ⊢
                rw [List.pairwise_append]
                refine ⟨hp, by simp, ?_⟩
                intro a ha b hb
                rw [List.mem_singleton] at hb
                subst hb
                rintro ⟨hcid2, hsid2⟩
                unfold findStudentCert at hsc
                apply List.find?_eq_none.1 hsc a ha
                simp [hcid2, hsid2]
              · intro now2 rnd2 render2
                have hc2 : findCourseOwned
                    { db with
                        student_certificates := db.student_certificates ++
                          [{ id := db.nextId, certificate_id := cert.id, student_id := sid,
                             course_id := cid, issue_date := now, completion_date := now,
                             credential_id := mkCredentialId course.courseCode rnd,
                             certificate_url := url, status := "Available" }],
                        notifications := db.notifications ++
                          [{ title := "Certificate Issued",
                             message := "You have been issued a certificate for completing \x27"
                                        ++ course.courseName ++ "\x27",
                             ntype := "certificate", recipient_id := sid, sender_id := uid,
                             course_id := cid, read := false, created_at := now }],
                        nextId := db.nextId + 1 } cid uid = some course := hc
                have ht2 : findTemplateByCourse
                    { db with
                        student_certificates := db.student_certificates ++
                          [{ id := db.nextId, certificate_id := cert.id, student_id := sid,
                             course_id := cid, issue_date := now, completion_date := now,
                             credential_id := mkCredentialId course.courseCode rnd,
                             certificate_url := url, status := "Available" }],
                        notifications := db.notifications ++
                          [{ title := "Certificate Issued",
                             message := "You have been issued a certificate for completing \x27"
                                        ++ course.courseName ++ "\x27",
                             ntype := "certificate", recipient_id := sid, sender_id := uid,
                             course_id := cid, read := false, created_at := now }],
                        nextId := db.nextId + 1 } cid = some cert := ht
                have he2 : findEnrollment
                    { db with
                        student_certificates := db.student_certificates ++
                          [{ id := db.nextId, certificate_id := cert.id, student_id := sid,
                             course_id := cid, issue_date := now, completion_date := now,
                             credential_id := mkCredentialId course.courseCode rnd,
                             certificate_url := url, status := "Available" }],
                        notifications := db.notifications ++
                          [{ title := "Certificate Issued",
                             message := "You have been issued a certificate for completing \x27"
                                        ++ course.courseName ++ "\x27",
                             ntype := "certificate", recipient_id := sid, sender_id := uid,
                             course_id := cid, read := false, created_at := now }],
                        nextId := db.nextId + 1 } cid sid = some enr := he
                have hsc2 : findStudentCert
                    { db with
                        student_certificates := db.student_certificates ++
                          [{ id := db.nextId, certificate_id := cert.id, student_id := sid,
                             course_id := cid, issue_date := now, completion_date := now,
                             credential_id := mkCredentialId course.courseCode rnd,
                             certificate_url := url, status := "Available" }],
                        notifications := db.notifications ++
                          [{ title := "Certificate Issued",
                             message := "You have been issued a certificate for completing \x27"
                                        ++ course.courseName ++ "\x27",
                             ntype := "certificate", recipient_id := sid, sender_id := uid,
                             course_id := cid, read := false, created_at := now }],
                        nextId := db.nextId + 1 } cert.id sid = some
                    { id := db.nextId, certificate_id := cert.id, student_id := sid,
                      course_id := cid, issue_date := now, completion_date := now,
                      credential_id := mkCredentialId course.courseCode rnd,
                      certificate_url := url, status := "Available" } := by
                  unfold findStudentCert at hsc ⊢
                  rw [find?_append_of_none _ _ _ hsc]
                  simp [List.find?_cons]
                simp [issue_certificate, hc2, ht2, he2, hsc2]

/-- Witness for C1 at a concrete input: issuing on the happy-path store
succeeds with status `Available`, and re-issuing on the resulting store
fails with the 400 Conflict and leaves the store unchanged. -/
theorem C1_issue_unique_witness :
    resp0.status = "Available" ∧
    (∃ sc ∈ db0iss.student_certificates, sc.certificate_id = resp0.certificate_id ∧
      sc.student_id = 20 ∧ sc.status = "Available") ∧
    (PairUnique db0 → PairUnique db0iss) ∧
    (∀ now2 rnd2 render2, issue_certificate 1 20 10 now2 rnd2 render2 db0iss =
      (.error ⟨400, "Certificate already issued to this student"⟩, db0iss)) :=
  C1_issue_unique 1 20 10 5 rnd0 render0 db0 resp0 db0iss (by rfl)

/-- The update path of template definition: with an existing template, the
call updates title/description/update-timestamp in place, returns the
existing identifier, and reports the default asset path. -/
theorem create_update_path (db : DB) (cid uid : Nat) (title : String)
    (desc : Option String) (now : Nat) (course : Course) (t0 : CertTemplate)
    (hc : findCourseOwned db cid uid = some course)
    (ht : findTemplateByCourse db cid = some t0) :
    create_certificate_template title cid desc uid now db =
      (.ok { id := t0.id, title := title, description := desc, course_id := cid,
             template := default_template_path },
       { db with
           certificates := (updateFirst (fun t => t.id == t0.id)
             (fun t => { t with title := title, description := desc, updated_at := now })
             db.certificates),
           courses := (updateFirst (fun c => c.id == cid)
             (fun c => { c with certificateOffered := true,
                                certificateTitle := some title,
                                certificateDescription := desc }) db.courses) }) := by
  simp [create_certificate_template, hc, ht]

/-- The insert path of template definition: with no existing template, the
call creates a new record under the fresh identifier with the default asset
path. -/
theorem create_insert_path (db : DB) (cid uid : Nat) (title : String)
    (desc : Option String) (now : Nat) (course : Course)
    (hc : findCourseOwned db cid uid = some course)
    (ht : findTemplateByCourse db cid = none) :
    create_certificate_template title cid desc uid now db =
      (.ok { id := db.nextId, title := title, description := desc, course_id := cid,
             template := default_template_path },
       { db with
           certificates := (db.certificates ++
             [{ id := db.nextId, course_id := cid, title := title, description := desc,
                template := default_template_path, created_at := now, updated_at := now }]),
           courses := (updateFirst (fun c => c.id == cid)
             (fun c => { c with certificateOffered := true,
                                certificateTitle := some title,
                                certificateDescription := desc }) db.courses),
           nextId := db.nextId + 1 }) := by
  simp [create_certificate_template, hc, ht]

/-- Claim C4: template definition is idempotent on identity.  Starting from
an owned course with no template, the first call creates the record under
the fresh identifier with the default asset path; a second call returns the
same identifier, stores the second call's title and description, and leaves
the stored asset path unchanged. -/
theorem C4_template_idempotent (db : DB) (cid uid : Nat) (t1 t2 : String)
    (d1 d2 : Option String) (now1 now2 : Nat) (course : Course)
    (hc : findCourseOwned db cid uid = some course)
    (ht : findTemplateByCourse db cid = none)
    (hfresh : ∀ t ∈ db.certificates, t.id ≠ db.nextId) :
    ∃ r1 db1 r2 db2,
      create_certificate_template t1 cid d1 uid now1 db = (.ok r1, db1) ∧
      create_certificate_template t2 cid d2 uid now2 db1 = (.ok r2, db2) ∧
      r2.id = r1.id ∧ r1.template = default_template_path ∧
      findTemplateByCourse db1 cid = some
        { id := r1.id, course_id := cid, title := t1, description := d1,
          template := default_template_path, created_at := now1, updated_at := now1 } ∧
      findTemplateByCourse db2 cid = some
        { id := r1.id, course_id := cid, title := t2, description := d2,
          template := default_template_path, created_at := now1, updated_at := now2 } := by
  have hc0 : db.courses.find? (fun c => c.id == cid && c.teacher_id == uid) = some course := hc
  have ht0 : db.certificates.find? (fun t => t.course_id == cid) = none := ht
  have h1 := create_insert_path db cid uid t1 d1 now1 course hc ht
  have hcs : ((updateFirst (fun c => c.id == cid)
      (fun c => { c with certificateOffered := true,
                         certificateTitle := some t1,
                         certificateDescription := d1 }) db.courses).find?
        (fun c => c.id == cid && c.teacher_id == uid)).isSome :=
    find?_isSome_updateFirst (fun c => c.id == cid && c.teacher_id == uid)
      (fun c => c.id == cid)
      (fun c => { c with certificateOffered := true,
                         certificateTitle := some t1,
                         certificateDescription := d1 })
      (fun x => rfl) db.courses (by rw [hc0]; rfl)
  obtain ⟨course2, hc2⟩ := Option.isSome_iff_exists.1 hcs
  have ht1 : List.find? (fun t => t.course_id == cid) (db.certificates ++
      [({ id := db.nextId, course_id := cid, title := t1, description := d1,
          template := default_template_path, created_at := now1,
          updated_at := now1 } : CertTemplate)]) = some
      { id := db.nextId, course_id := cid, title := t1, description := d1,
        template := default_template_path, created_at := now1, updated_at := now1 } := by
    rw [find?_append_of_none _ _ _ ht0]
    simp [List.find?_cons]
  have hc2' : findCourseOwned
      { db with
          certificates := (db.certificates ++
            [{ id := db.nextId, course_id := cid, title := t1, description := d1,
               template := default_template_path, created_at := now1, updated_at := now1 }]),
          courses := (updateFirst (fun c => c.id == cid)
            (fun c => { c with certificateOffered := true,
                               certificateTitle := some t1,
                               certificateDescription := d1 }) db.courses),
          nextId := db.nextId + 1 } cid uid = some course2 := hc2
  have ht1' : findTemplateByCourse
      { db with
          certificates := (db.certificates ++
            [{ id := db.nextId, course_id := cid, title := t1, description := d1,
               template := default_template_path, created_at := now1, updated_at := now1 }]),
          courses := (updateFirst (fun c => c.id == cid)
            (fun c => { c with certificateOffered := true,
                               certificateTitle := some t1,
                               certificateDescription := d1 }) db.courses),
          nextId := db.nextId + 1 } cid = some
      { id := db.nextId, course_id := cid, title := t1, description := d1,
        template := default_template_path, created_at := now1, updated_at := now1 } := ht1
  have h2 := create_update_path
      { db with
          certificates := (db.certificates ++
            [{ id := db.nextId, course_id := cid, title := t1, description := d1,
               template := default_template_path, created_at := now1, updated_at := now1 }]),
          courses := (updateFirst (fun c => c.id == cid)
            (fun c => { c with certificateOffered := true,
                               certificateTitle := some t1,
                               certificateDescription := d1 }) db.courses),
          nextId := db.nextId + 1 } cid uid t2 d2 now2 course2
      { id := db.nextId, course_id := cid, title := t1, description := d1,
        template := default_template_path, created_at := now1, updated_at := now1 }
      hc2' ht1'
  refine ⟨_, _, _, _, h1, h2, rfl, rfl, ht1', ?_⟩
  have hpre : ∀ x ∈ db.certificates, (x.id == db.nextId) = false := by
    intro x hx
    simpa using hfresh x hx
  show (updateFirst (fun t => t.id == db.nextId)
      (fun t => { t with title := t2, description := d2, updated_at := now2 })
      (db.certificates ++
        [{ id := db.nextId, course_id := cid, title := t1, description := d1,
           template := default_template_path, created_at := now1,
           updated_at := now1 }])).find? (fun t => t.course_id == cid) = some
      { id := db.nextId, course_id := cid, title := t2, description := d2,
        template := default_template_path, created_at := now1, updated_at := now2 }
  rw [updateFirst_append_of_none _ _ _ _ hpre, find?_append_of_none _ _ _ ht0]
  simp [updateFirst, List.find?_cons]

/-- Witness for C4 at a concrete input: defining a template twice on the
template-less store returns identifier 100 both times. -/
theorem C4_template_idempotent_witness :
    ∃ r1 db1 r2 db2,
      create_certificate_template "A" 1 (some "da") 10 3 db4 = (.ok r1, db1) ∧
      create_certificate_template "B" 1 (some "dbb") 10 7 db1 = (.ok r2, db2) ∧
      r2.id = r1.id ∧ r1.template = default_template_path ∧
      findTemplateByCourse db1 1 = some
        { id := r1.id, course_id := 1, title := "A", description := some "da",
          template := default_template_path, created_at := 3, updated_at := 3 } ∧
      findTemplateByCourse db2 1 = some
        { id := r1.id, course_id := 1, title := "B", description := some "dbb",
          template := default_template_path, created_at := 3, updated_at := 7 } :=
  C4_template_idempotent db4 1 10 "A" "B" (some "da") (some "dbb") 3 7 course0
    (by decide) (by rfl) (by decide)

/-- Claim C9: a successful template definition mutates, on the first course
record matching the course identifier, only the certificate-offering flag
and the denormalized certificate title and description (set to the call's
inputs); every other field of that record and every other course record are
unchanged. -/
theorem C9_course_frame (db : DB) (cid uid : Nat) (title : String)
    (desc : Option String) (now : Nat) (course : Course)
    (hc : findCourseOwned db cid uid = some course) :
    ∃ l1 c0 l2, db.courses = l1 ++ c0 :: l2 ∧ (∀ x ∈ l1, x.id ≠ cid) ∧ c0.id = cid ∧
      (create_certificate_template title cid desc uid now db).2.courses = l1 ++
        ({ id := c0.id, teacher_id := c0.teacher_id, courseCode := c0.courseCode,
           courseName := c0.courseName, instructorName := c0.instructorName,
           certificateOffered := true, certificateTitle := some title,
           certificateDescription := desc } : Course) :: l2 := by
  have hc' : List.find? (fun c => c.id == cid && c.teacher_id == uid) db.courses =
      some course := hc
  have hmem : course ∈ db.courses := List.mem_of_find?_eq_some hc'
  have hp := List.find?_some hc'
  simp only [Bool.and_eq_true, beq_iff_eq] at hp
  have hqs : (List.find? (fun c => c.id == cid) db.courses).isSome :=
    List.find?_isSome.2 ⟨course, hmem, by simp [hp.1]⟩
  obtain ⟨c0, hc0⟩ := Option.isSome_iff_exists.1 hqs
  obtain ⟨l1, l2, heq, hpre, hupd⟩ := updateFirst_decomp (fun c => c.id == cid)
    (fun c => { c with certificateOffered := true,
                       certificateTitle := some title,
                       certificateDescription := desc }) db.courses c0 hc0
  have hdbc : (create_certificate_template title cid desc uid now db).2.courses =
      updateFirst (fun c => c.id == cid)
        (fun c => { c with certificateOffered := true,
                           certificateTitle := some title,
                           certificateDescription := desc }) db.courses := by
    cases htm : findTemplateByCourse db cid with
    | none => simp [create_certificate_template, hc, htm]
    | some t0 => simp [create_certificate_template, hc, htm]
  refine ⟨l1, c0, l2, heq, ?_, ?_, ?_⟩
  · intro x hx
    simpa using hpre x hx
  · simpa using List.find?_some hc0
  · rw [hdbc, hupd]

/-- Witness for C9 at a concrete input: defining a template on the
happy-path store updates only the certificate fields of course 1. -/
theorem C9_course_frame_witness :
    ∃ l1 c0 l2, db0.courses = l1 ++ c0 :: l2 ∧ (∀ x ∈ l1, x.id ≠ 1) ∧ c0.id = 1 ∧
      (create_certificate_template "T" 1 (some "d") 10 9 db0).2.courses = l1 ++
        ({ id := c0.id, teacher_id := c0.teacher_id, courseCode := c0.courseCode,
           courseName := c0.courseName, instructorName := c0.instructorName,
           certificateOffered := true, certificateTitle := some "T",
           certificateDescription := some "d" } : Course) :: l2 :=
  C9_course_frame db0 1 10 "T" (some "d") 9 course0 (by decide)

/-- Claim C10: a template-definition call that updates an existing template
reports the hardcoded default asset path in its response regardless of the
stored path, while the stored asset path of every template record is left
unmodified. -/
theorem C10_update_reports_default (db : DB) (cid uid : Nat) (title : String)
    (desc : Option String) (now : Nat) (course : Course) (t0 : CertTemplate)
    (hc : findCourseOwned db cid uid = some course)
    (ht : findTemplateByCourse db cid = some t0) :
    ∃ r db', create_certificate_template title cid desc uid now db = (.ok r, db') ∧
      r.template = default_template_path ∧ r.id = t0.id ∧
      db'.certificates.map (fun t => t.template) =
        db.certificates.map (fun t => t.template) := by
  refine ⟨_, _, create_update_path db cid uid title desc now course t0 hc ht,
    rfl, rfl, ?_⟩
  exact updateFirst_map_invar (fun t => t.id == t0.id)
    (fun t => { t with title := title, description := desc, updated_at := now })
    (fun t => t.template) (fun x => rfl) db.certificates

/-- Witness for C10 at a concrete input: the stored path `uploads/custom.png`
differs from the default, the update response still reports the default, and
the stored paths are unchanged. -/
theorem C10_update_reports_default_witness :
    tmplCustom.template ≠ default_template_path ∧
    ∃ r db', create_certificate_template "New" 1 (some "nd") 10 9 db10 = (.ok r, db') ∧
      r.template = default_template_path ∧ r.id = tmplCustom.id ∧
      db'.certificates.map (fun t => t.template) =
        db10.certificates.map (fun t => t.template) :=
  ⟨by decide,
   C10_update_reports_default db10 1 10 "New" (some "nd") 9 course0 tmplCustom
     (by decide) (by rfl)⟩

/-- Counterexample to claim C5 as stated: on a store holding an issued
certificate for course 1 whose student record resolves but whose course has
no template record, the course listing returns an empty issued list
(together with the null template) instead of that certificate — the issued
certificates are not returned "in either case". -/
theorem C5_counterexample :
    (∃ sc ∈ db5.student_certificates, sc.course_id = 1 ∧
      (findUser db5 sc.student_id).isSome = true) ∧
    get_course_certificates 1 10 db5 =
      .ok { certificate_template := none, issued_certificates := [] } :=
  ⟨⟨cert0, by decide, by decide, by decide⟩, rfl⟩

/-- Claim C5 (amended): for an owned course, when no template is defined the
listing returns an explicit null template together with an empty issued list
(the issued-certificate store is not consulted); when a template exists it is
returned along with every issued certificate of the course whose student
record resolves, each enriched with the student display name, the others
silently skipped. -/
theorem C5_course_listing (db : DB) (cid uid : Nat) (course : Course)
    (hc : findCourseOwned db cid uid = some course) :
    (findTemplateByCourse db cid = none →
      get_course_certificates cid uid db =
        .ok { certificate_template := none, issued_certificates := [] }) ∧
    (∀ t, findTemplateByCourse db cid = some t →
      get_course_certificates cid uid db = .ok
        { certificate_template := some
            { id := t.id, title := t.title, description := t.description,
              course_id := t.course_id, template := t.template },
          issued_certificates :=
            ((db.student_certificates.filter (fun sc => sc.course_id == cid)).filterMap
              (fun sc => (findUser db sc.student_id).map
                (fun u => { cert := sc, student_name := u.username }))) }) := by
  constructor
  · intro ht
    simp [get_course_certificates, hc, ht]
  · intro t ht
    simp [get_course_certificates, hc, ht, courseCertLoop_eq_filterMap]

/-- Witness for the amended C5 at a concrete input: listing the happy-path
store after issuance returns the template and the one enriched certificate. -/
theorem C5_course_listing_witness :
    get_course_certificates 1 10 db0iss = .ok
      { certificate_template := some
          { id := tmpl0.id, title := tmpl0.title, description := tmpl0.description,
            course_id := tmpl0.course_id, template := tmpl0.template },
        issued_certificates :=
          ((db0iss.student_certificates.filter (fun sc => sc.course_id == 1)).filterMap
            (fun sc => (findUser db0iss sc.student_id).map
              (fun u => { cert := sc, student_name := u.username }))) } :=
  (C5_course_listing db0iss 1 10 course0 (by decide)).2 tmpl0 (by decide)
